import Mathlib

/-!
Shallow embedding of the search/filter/sort/recommendation pipeline of the
bingeworthy.ai repository (files `lib/movie-api.ts`, `app/api/content/search/route.ts`
and `app/api/ai/recommendations/route.ts`), together with theorems settling the
frozen claims about it.

Numbers: the TypeScript code manipulates JavaScript numbers only through
comparisons, sign tests of comparator results, absolute differences and range
checks, so they are modelled as `ℚ` (ratings) and `ℤ` (years).  Strings are
modelled by Lean `String`; because the case/trim/substring primitives of the
TypeScript standard library act on the relevant data exactly character-wise,
they are embedded as structurally recursive functions over `String.data`
(ASCII case mapping, as used by every string the code compares).
-/

namespace Bingeworthy

/-! ### String primitives (embedding of the JavaScript string operations used) -/

/-- Embedding of JavaScript `toLowerCase` (ASCII range, which covers every
character the source code compares). -/
def toLowerS (s : String) : String := ⟨s.data.map Char.toLower⟩

/-- Embedding of JavaScript `toUpperCase` (ASCII range). -/
def toUpperS (s : String) : String := ⟨s.data.map Char.toUpper⟩

/-- Whitespace as in JavaScript `\s` / `trim` for the ASCII characters that
occur in the data handled by the code. -/
def isWS (c : Char) : Bool := c = ' ' || c = '\t' || c = '\n' || c = '\r'

/-- Embedding of JavaScript `String.prototype.trim`. -/
def trimS (s : String) : String :=
  ⟨((s.data.dropWhile isWS).reverse.dropWhile isWS).reverse⟩

/-- Embedding of JavaScript `String.prototype.includes`: `sub` occurs
contiguously in `s` (the empty string is included in every string). -/
def containsS (s sub : String) : Bool :=
  go sub.data s.data
where
  go (needle : List Char) : List Char → Bool
    | [] => needle.isPrefixOf []
    | c :: cs => needle.isPrefixOf (c :: cs) || go needle cs

/-- Embedding of JavaScript `String.prototype.length` (all strings involved are
ASCII, where UTF-16 length and character count agree). -/
def lengthS (s : String) : Nat := s.data.length

/-! ### Data model (`lib/types.ts`) -/

/-- The `Content` interface of `lib/types.ts`, restricted to the fields the
search pipeline reads (the remaining fields — poster/backdrop URLs, cast,
runtime, trailer, status — are carried opaquely by `rest`). -/
structure Content where
  id : Nat
  title : String
  type : String
  description : String
  release_year : Int
  imdb_rating : ℚ
  tmdb_rating : ℚ
  genre : String
  streaming_platforms : List String
  country : String
  language : String
deriving DecidableEq, Repr

/-- The `SearchFilters` interface of `lib/types.ts`: five required string
fields and two optional numeric fields. -/
structure SearchFilters where
  platform : String
  genre : String
  language : String
  country : String
  type : String
  year : Option Int
  rating_min : Option ℚ
deriving DecidableEq, Repr

/-- The `APIResponse<T>` envelope of `lib/types.ts` (plus the ad-hoc `message`
field that `searchContent` adds to its success value). -/
structure APIResponse (α : Type) where
  success : Bool
  data : Option α
  error : Option String
  message : Option String
deriving DecidableEq, Repr

/-- The `LANGUAGE_CODES` table of `lib/movie-api.ts`, in source order. -/
def languageCodes : List (String × String) :=
  [("hindi", "hi"), ("english", "en"), ("spanish", "es"), ("french", "fr"),
   ("german", "de"), ("italian", "it"), ("japanese", "ja"), ("korean", "ko"),
   ("chinese", "zh"), ("portuguese", "pt"), ("russian", "ru"), ("arabic", "ar"),
   ("tamil", "ta"), ("telugu", "te"), ("bengali", "bn"), ("marathi", "mr"),
   ("gujarati", "gu"), ("punjabi", "pa"), ("malayalam", "ml"), ("kannada", "kn")]

/-! ### The filter stage (`applyFilters` in `lib/movie-api.ts`, lines 445-526)

Each `passes*` function is the guard of the corresponding `if (...) return false`
block of the source; an item survives `applyFilters` exactly when every guard
lets it through, in source order. -/

/-- Type guard: `if (filters.type && filters.type.trim() !== "")`. -/
def passesType (f : SearchFilters) (item : Content) : Bool :=
  if f.type ≠ "" ∧ trimS f.type ≠ "" then item.type == f.type else true

/-- Genre guard: case-insensitive partial match of the filter genre inside the
item's genre string. -/
def passesGenre (f : SearchFilters) (item : Content) : Bool :=
  if f.genre ≠ "" ∧ trimS f.genre ≠ "" then
    containsS (toLowerS item.genre) (trimS (toLowerS f.genre))
  else true

/-- Language guard: direct comparison, code-table lookup, or name/code pairs
from `LANGUAGE_CODES` (the three disjuncts of `isMatch` in the source). -/
def passesLanguage (f : SearchFilters) (item : Content) : Bool :=
  if f.language ≠ "" ∧ trimS f.language ≠ "" then
    let filterLanguage := trimS (toUpperS f.language)
    let itemLanguage := trimS (toUpperS item.language)
    itemLanguage == filterLanguage ||
      (match languageCodes.lookup (toLowerS filterLanguage) with
       | some code => itemLanguage == code
       | none => false) ||
      languageCodes.any (fun nc =>
        (toUpperS nc.1 == filterLanguage && toUpperS nc.2 == itemLanguage) ||
        (toUpperS nc.2 == filterLanguage && toUpperS nc.2 == itemLanguage))
  else true

/-- Country guard: exact match after uppercasing and trimming. -/
def passesCountry (f : SearchFilters) (item : Content) : Bool :=
  if f.country ≠ "" ∧ trimS f.country ≠ "" then
    trimS (toUpperS item.country) == trimS (toUpperS f.country)
  else true

/-- Platform guard: some platform of the item matches the filter platform by
bidirectional partial matching. -/
def passesPlatform (f : SearchFilters) (item : Content) : Bool :=
  if f.platform ≠ "" ∧ trimS f.platform ≠ "" then
    let filterPlatform := trimS (toLowerS f.platform)
    item.streaming_platforms.any (fun platform =>
      let platformLower := toLowerS platform
      containsS platformLower filterPlatform || containsS filterPlatform platformLower)
  else true

/-- Rating guard: `if (filters.rating_min && filters.rating_min > 0)` — the
guard is active for a present, truthy (nonzero), positive minimum; the item is
dropped when both of its ratings are below the minimum. -/
def passesRating (f : SearchFilters) (item : Content) : Bool :=
  match f.rating_min with
  | none => true
  | some r =>
    if r ≠ 0 ∧ 0 < r then
      !(decide (item.tmdb_rating < r) && decide (item.imdb_rating < r))
    else true

/-- Year guard: `if (filters.year && filters.year > 1900)` with a one-year
tolerance on the absolute difference. -/
def passesYear (f : SearchFilters) (item : Content) : Bool :=
  match f.year with
  | none => true
  | some y =>
    if y ≠ 0 ∧ 1900 < y then decide (|item.release_year - y| ≤ 1) else true

/-- The per-item predicate of `applyFilters`: the source's sequence of
early-`return false` guards, i.e. the conjunction of the seven field guards in
source order. -/
def itemPasses (f : SearchFilters) (item : Content) : Bool :=
  passesType f item && passesGenre f item && passesLanguage f item &&
    passesCountry f item && passesPlatform f item && passesRating f item &&
    passesYear f item

/-- The `applyFilters` function of `lib/movie-api.ts`. -/
def applyFilters (content : List Content) (filters : SearchFilters) : List Content :=
  content.filter (fun item => itemPasses filters item)

/-- The seven field-level guards of `applyFilters`, in source order. -/
def fieldChecks : List (SearchFilters → Content → Bool) :=
  [passesType, passesGenre, passesLanguage, passesCountry, passesPlatform,
   passesRating, passesYear]

/-! ### The sort stage (the comparator passed to `.sort` in `searchContent`)

JavaScript `Array.prototype.sort` with a consistent comparator produces a
permutation ordered by the comparator's sign; it is embedded as a stable
insertion sort with respect to the boolean relation "comparator result ≤ 0". -/

/-- The numeric comparator of `searchContent` (lines 229-236): primary key
`tmdb_rating` descending, secondary key `imdb_rating` descending. -/
def cmpResult (a b : Content) : ℚ :=
  if b.tmdb_rating ≠ a.tmdb_rating then b.tmdb_rating - a.tmdb_rating
  else b.imdb_rating - a.imdb_rating

/-- The relation "the comparator puts `a` no later than `b`", with the
subtraction's sign test expressed directly as a comparison (see
`contentLe_eq_cmpResult_nonpos`). -/
def contentLe (a b : Content) : Bool :=
  if b.tmdb_rating ≠ a.tmdb_rating then decide (b.tmdb_rating ≤ a.tmdb_rating)
  else decide (b.imdb_rating ≤ a.imdb_rating)

/-- Stable insertion of an element into a list according to a boolean relation. -/
def insertLe (le : α → α → Bool) (a : α) : List α → List α
  | [] => [a]
  | b :: bs => if le a b then a :: b :: bs else b :: insertLe le a bs

/-- Stable comparator sort, the embedding of `Array.prototype.sort` with a
consistent comparator. -/
def sortLe (le : α → α → Bool) : List α → List α
  | [] => []
  | a :: as => insertLe le a (sortLe le as)

/-! ### The paginated fetch loop of `searchContent` (lines 160-209)

The upstream is an oracle `pages : ℕ → APIResponse (List Content)` giving, for
each page number, the envelope that `searchMovies` (resp. `searchTVShows`)
returns for that page of the fixed query.  The `while (hasMoreResults)` loop is
embedded with explicit fuel; the termination claim is that the result is the
same for every sufficient fuel. -/

/-- The items carried by a page envelope (`resp.data`, empty when absent);
the loop pushes them exactly when `success && data && data.length > 0`. -/
def pageItems (resp : APIResponse (List Content)) : List Content :=
  resp.data.getD []

/-- The loop's continuation condition: the page was pushed and was not short
(`success && data && data.length > 0` and not `data.length < 20`). -/
def pageContinues (resp : APIResponse (List Content)) : Bool :=
  resp.success && decide (0 < (pageItems resp).length) &&
    !decide ((pageItems resp).length < 20)

/-- The items the loop pushes for one page (pushed only when the envelope is
successful and nonempty). -/
def pushedItems (resp : APIResponse (List Content)) : List Content :=
  if resp.success ∧ 0 < (pageItems resp).length then pageItems resp else []

/-- The error the loop records when it stops at one page
(`if (!resp.success && resp.error)`, a JavaScript-truthy error string). -/
def stopErrors (resp : APIResponse (List Content)) : List String :=
  match resp.error with
  | some e => if resp.success = false ∧ e ≠ "" then [e] else []
  | none => []

/-- The `while (hasMoreResults)` pagination loop of `searchContent`, starting at
page `p`, with explicit `fuel` bounding the number of iterations: returns the
concatenated pushed items and the collected search errors. -/
def fetchPages (pages : Nat → APIResponse (List Content)) : Nat → Nat →
    List Content × List String
  | 0, _ => ([], [])
  | fuel + 1, p =>
    let resp := pages p
    if resp.success ∧ 0 < (pageItems resp).length then
      if (pageItems resp).length < 20 then (pageItems resp, [])
      else
        let rest := fetchPages pages fuel (p + 1)
        (pageItems resp ++ rest.1, rest.2)
    else ([], stopErrors resp)

/-- The pages the loop actually requests (one upstream HTTP call per entry). -/
def fetchTrace (pages : Nat → APIResponse (List Content)) : Nat → Nat → List Nat
  | 0, _ => []
  | fuel + 1, p =>
    if pageContinues (pages p) then p :: fetchTrace pages fuel (p + 1) else [p]

/-! ### `searchContent` (lines 146-260) -/

/-- Error string of the missing-API-key branch. -/
def apiKeyMissingMsg : String :=
  "TMDB API key is not configured. Please add your TMDB API key to environment variables."

/-- Error string of the empty-sorted-result branch. -/
def noResultsMsg : String :=
  "No movies or TV shows found matching your search criteria. Try different keywords or remove some filters."

/-- The `searchContent` function: movie pagination loop, TV pagination loop,
first-error short-circuit when nothing was collected, filter stage, two-key
sort, and the success/no-results envelopes.  `keyConfigured` models the
`TMDB_API_KEY` environment check; the two oracles model `searchMovies` and
`searchTVShows` applied to the fixed query and filters. -/
def searchContent (keyConfigured : Bool)
    (moviePages tvPages : Nat → APIResponse (List Content)) (fuel : Nat)
    (filters : SearchFilters) : APIResponse (List Content) :=
  if keyConfigured = false then
    { success := false, data := none, error := some apiKeyMissingMsg, message := none }
  else
    let m := fetchPages moviePages fuel 1
    let t := fetchPages tvPages fuel 1
    let allResults := m.1 ++ t.1
    let allErrors := m.2 ++ t.2
    if allResults.length = 0 ∧ 0 < allErrors.length then
      { success := false, data := none, error := some (allErrors.headD ""),
        message := none }
    else
      let filteredResults := applyFilters allResults filters
      let sortedResults := sortLe contentLe filteredResults
      if sortedResults.length = 0 then
        { success := false, data := none, error := some noResultsMsg, message := none }
      else
        { success := true, data := some sortedResults, error := none,
          message := some ("Found " ++ toString sortedResults.length ++ " results") }

/-- One outbound request of the search pipeline.  `searchContent` only ever
issues the two title-search kinds; the discovery kinds exist for the
`discoverContent` endpoint (`/discover/movie`, `/discover/tv`). -/
inductive UpstreamRequest where
  | searchMovie (query : String) (page : Nat)
  | searchTV (query : String) (page : Nat)
  | discoverMovie (page : Nat)
  | discoverTV (page : Nat)
deriving DecidableEq, Repr

/-- The outbound requests `searchContent` issues for a query: the movie loop
calls `searchMovies(query, filters, page)` for each visited page, then the TV
loop calls `searchTVShows(query, filters, page)` likewise. -/
def searchContentRequests (query : String)
    (moviePages tvPages : Nat → APIResponse (List Content)) (fuel : Nat) :
    List UpstreamRequest :=
  (fetchTrace moviePages fuel 1).map (UpstreamRequest.searchMovie query) ++
    (fetchTrace tvPages fuel 1).map (UpstreamRequest.searchTV query)

/-! ### Per-page upstream envelopes (`searchMovies` lines 265-305,
`searchTVShows` lines 310-350)

The HTTP layer is an abstract response (ok flag, status, status text); the
successful-response conversion pipeline (TMDB JSON → `Content`, with watch
providers and trailers) depends on further network calls and randomness and is
abstracted as `okData`.  The functions are total: every branch, including every
non-ok status, yields an envelope — the `try/catch` of the source never lets an
exception escape. -/

structure UpstreamHTTP where
  ok : Bool
  status : Nat
  statusText : String
deriving DecidableEq, Repr

/-- The user-facing authentication error message of the 401 branch. -/
def authFailedMsg : String :=
  "API authentication failed. Please check your TMDB API key is valid and active."

/-- The generic failure string for any other non-ok status. -/
def requestFailedMsg (status : Nat) (statusText : String) : String :=
  "API request failed: " ++ toString status ++ " " ++ statusText

/-- The `searchMovies` envelope logic. -/
def searchMoviesResult (keyConfigured : Bool) (resp : UpstreamHTTP)
    (okData : List Content) : APIResponse (List Content) :=
  if keyConfigured = false then
    { success := false, data := none, error := some "TMDB API key is not configured",
      message := none }
  else if resp.ok = false then
    if resp.status = 401 then
      { success := false, data := none, error := some authFailedMsg, message := none }
    else
      { success := false, data := none,
        error := some (requestFailedMsg resp.status resp.statusText), message := none }
  else
    { success := true, data := some okData, error := none, message := none }

/-- The `searchTVShows` envelope logic (textually duplicated in the source). -/
def searchTVShowsResult (keyConfigured : Bool) (resp : UpstreamHTTP)
    (okData : List Content) : APIResponse (List Content) :=
  if keyConfigured = false then
    { success := false, data := none, error := some "TMDB API key is not configured",
      message := none }
  else if resp.ok = false then
    if resp.status = 401 then
      { success := false, data := none, error := some authFailedMsg, message := none }
    else
      { success := false, data := none,
        error := some (requestFailedMsg resp.status resp.statusText), message := none }
  else
    { success := true, data := some okData, error := none, message := none }

/-! ### The rule-based query interpreter (`parseQueryIntelligently`,
`lib/movie-api.ts` lines 935-1034)

`interpretSearchQueryWithLLM` always ends in this rule-based parser (the LLM
call's output is discarded), so this function is the query interpreter proper. -/

/-- The `topPatterns` list of the source. -/
def topPatterns : List String :=
  ["top", "best", "highest rated", "greatest", "popular", "trending", "recommended"]

/-- The `genres` list of the source's genre-pattern check. -/
def genreWords : List String :=
  ["action", "comedy", "drama", "horror", "thriller", "romance", "sci-fi",
   "fantasy", "animation", "documentary"]

/-- The `platforms` list of the source's platform-pattern check. -/
def platformWords : List String :=
  ["netflix", "hbo", "amazon prime", "disney", "apple tv", "paramount", "hulu",
   "zee5", "hotstar"]

/-- A `Partial<SearchFilters>` object: each field is present (`some`) or absent
(`none`); spreading a full `SearchFilters` makes every string field present. -/
structure PartialFilters where
  platform : Option String
  genre : Option String
  language : Option String
  country : Option String
  type : Option String
  year : Option Int
  rating_min : Option ℚ
deriving DecidableEq, Repr

/-- The spread `{ ...filters }` initialising `enhancedFilters`. -/
def initPartial : Option SearchFilters → PartialFilters
  | none => ⟨none, none, none, none, none, none, none⟩
  | some f => ⟨some f.platform, some f.genre, some f.language, some f.country,
               some f.type, f.year, f.rating_min⟩

/-- `Object.keys(enhancedFilters).length > 0`: some key is present. -/
def hasAnyKey (pf : PartialFilters) : Bool :=
  pf.platform.isSome || pf.genre.isSome || pf.language.isSome ||
    pf.country.isSome || pf.type.isSome || pf.year.isSome || pf.rating_min.isSome

/-- A JavaScript `\w` word character (`[A-Za-z0-9_]`). -/
def isWordChar (c : Char) : Bool := c.isAlphanum || c = '_'

/-- Numeric value of a decimal digit character. -/
def digitVal (c : Char) : Nat := c.toNat - 48

/-- Leftmost match of the year regex `\b(19|20)\d{2}\b`: scans for the first
position with a non-word character (or start) before it, `19` or `20`, two
further digits, and a non-word character (or end) after; returns the parsed
four-digit number, as `Number.parseInt(yearMatch[0])` does. -/
def yearScan (prev : Option Char) : List Char → Option Nat
  | [] => none
  | a :: rest =>
    match rest with
    | b :: c :: d :: rest2 =>
      if (match prev with | none => true | some q => !isWordChar q) &&
          ((a = '1' && b = '9') || (a = '2' && b = '0')) &&
          c.isDigit && d.isDigit &&
          (match rest2 with | [] => true | e :: _ => !isWordChar e) then
        some (digitVal a * 1000 + digitVal b * 100 + digitVal c * 10 + digitVal d)
      else yearScan (some a) rest
    | _ => none

/-- The record returned by `parseQueryIntelligently` (and so by
`interpretSearchQueryWithLLM`). -/
structure ParseResult where
  searchTerms : Option String
  filters : PartialFilters
  useDiscoverAPI : Bool
  reasoning : String
deriving DecidableEq, Repr

/-- The `parseQueryIntelligently` function: top-pattern detection, then the
first matching language, genre and platform (each loop `break`s at its first
hit), the year regex, the type heuristics, and the final top-pattern/discover
decision, in source order. -/
def parseQueryIntelligently (query : String) (filters : Option SearchFilters) :
    ParseResult :=
  let queryLower := trimS (toLowerS query)
  let r0 : ParseResult :=
    ⟨some query, initPartial filters, false, "Using specific title search"⟩
  let hasTopPattern := topPatterns.any (fun pat => containsS queryLower pat)
  let r1 :=
    match languageCodes.find? (fun nc => containsS queryLower nc.1) with
    | none => r0
    | some nc =>
      let pf := { r0.filters with language := some (toUpperS nc.2) }
      if containsS queryLower (nc.1 ++ " movies") ||
          containsS queryLower (nc.1 ++ " shows") then
        ⟨none, pf, true, "Language-specific content discovery for " ++ nc.1⟩
      else ⟨r0.searchTerms, pf, r0.useDiscoverAPI, r0.reasoning⟩
  let r2 :=
    match genreWords.find? (fun g => containsS queryLower g) with
    | none => r1
    | some g =>
      let pf := { r1.filters with genre := some g }
      if hasTopPattern || containsS queryLower (g ++ " movies") ||
          containsS queryLower (g ++ " shows") then
        ⟨none, pf, true, "Genre-based discovery for " ++ g⟩
      else ⟨r1.searchTerms, pf, r1.useDiscoverAPI, r1.reasoning⟩
  let r3 :=
    match platformWords.find? (fun p => containsS queryLower p) with
    | none => r2
    | some p =>
      let pf := { r2.filters with platform := some p }
      if hasTopPattern then
        ⟨none, pf, true, "Platform-specific discovery for " ++ p⟩
      else ⟨r2.searchTerms, pf, r2.useDiscoverAPI, r2.reasoning⟩
  let r4 :=
    match yearScan none queryLower.data with
    | some y => { r3 with filters := { r3.filters with year := some (y : Int) } }
    | none => r3
  let r5 :=
    if containsS queryLower "movies" && !containsS queryLower "tv" then
      { r4 with filters := { r4.filters with type := some "movie" } }
    else if containsS queryLower "shows" || containsS queryLower "series" ||
        containsS queryLower "tv" then
      { r4 with filters := { r4.filters with type := some "tv" } }
    else r4
  if hasTopPattern && hasAnyKey r5.filters then
    ⟨none, r5.filters, true, "Top-rated content discovery with filters"⟩
  else r5

/-! ### The AI recommendation generator
(`app/api/ai/recommendations/route.ts`)

The `topListPattern` regular expression
`(?:list|show|give me|find)\s+(?:top\s+)?(\d+)?\s*(?:best|top|greatest|most popular)\s+(.+?)(?:movies?|tv shows?|series)`
(case-insensitive, unanchored) is embedded as an explicit leftmost-match
scanner replaying the backtracking engine's attempt order:

* each alternation's branches have pairwise distinct first letters, so at a
  given position at most one branch can match and no backtracking happens
  inside an alternation;
* the greedy pieces before the rating word may be taken with maximal munch:
  whatever `\s+` or `(?:top\s+)?`'s inner `\s+` gives back is whitespace that
  only the later `\s*` can re-consume (the optional `top` and `(\d+)?` cannot
  start with whitespace, and the rating word starts with a letter), so every
  backtracked state reaches the rating word at the same position; likewise
  `(\d+)?` giving back digits leaves a digit that neither `\s*` nor the rating
  word can consume;
* the optional `(?:top\s+)?` needs one explicit backtracking alternative
  (taken first, untaken on failure);
* the greedy `\s+` after the rating word is different: the lazy `(.+?)` that
  follows it can consume the whitespace it gives back, because `.` matches
  space and tab (though not line terminators).  The scanner therefore replays
  the engine's order: full munch first, then ceding one trailing whitespace
  character at a time down to the single character `\s+` must keep, running
  the lazy category scan at each step. -/

/-- A recommendation record of the response. -/
structure Recommendation where
  id : String
  title : String
  description : String
  category : String
  confidence : ℚ
deriving DecidableEq, Repr

/-- Remove a case-insensitive literal pattern from the front of the text,
returning the remainder. -/
def dropPatCI (pat : List Char) (cs : List Char) : Option (List Char) :=
  match pat, cs with
  | [], rest => some rest
  | _ :: _, [] => none
  | p :: ps, c :: rest =>
    if Char.toLower c = Char.toLower p then dropPatCI ps rest else none

/-- Maximal-munch `\s*`. -/
def dropWSMax (cs : List Char) : List Char := cs.dropWhile isWS

/-- `\s+`: at least one whitespace character, then maximal munch. -/
def dropWS1 : List Char → Option (List Char)
  | [] => none
  | c :: rest => if isWS c then some (dropWSMax rest) else none

/-- The leading verb alternation `(?:list|show|give me|find)`. -/
def leadVerb (cs : List Char) : Option (List Char) :=
  dropPatCI "list".data cs <|> dropPatCI "show".data cs <|>
    dropPatCI "give me".data cs <|> dropPatCI "find".data cs

/-- The rating-word alternation `(?:best|top|greatest|most popular)`. -/
def bestWord (cs : List Char) : Option (List Char) :=
  dropPatCI "best".data cs <|> dropPatCI "top".data cs <|>
    dropPatCI "greatest".data cs <|> dropPatCI "most popular".data cs

/-- The closing alternation `(?:movies?|tv shows?|series)` matches at this
point (its extent does not affect the capture groups). -/
def mediaWordAt (cs : List Char) : Bool :=
  (dropPatCI "movie".data cs).isSome || (dropPatCI "tv show".data cs).isSome ||
    (dropPatCI "series".data cs).isSome

/-- A character the dot of `(.+?)` matches: anything but a line terminator
(the pattern has no `s` flag). -/
def dotChar (c : Char) : Bool :=
  !(c = '\n' || c = '\r' || c.toNat = 0x2028 || c.toNat = 0x2029)

/-- The lazy capture `(.+?)` before the closing alternation: the shortest
nonempty prefix of dot-matching characters after which the closing
alternation matches. -/
def lazyCategory (acc : List Char) : List Char → Option (List Char)
  | [] => none
  | c :: rest =>
    if dotChar c then
      if mediaWordAt rest then some (c :: acc).reverse
      else lazyCategory (c :: acc) rest
    else none

/-- The backtracking of the greedy `\s+` into the lazy `(.+?)` that follows
it: `run` is the maximal whitespace run, `rest` the text after it; the engine
first keeps the whole run for `\s+` and, on failure of the category scan,
cedes one trailing whitespace character at a time to the category, down to the
one character `\s+` must keep.  `j` is the number of characters `\s+` still
consumes at the current attempt. -/
def wsCedeCategory (run rest : List Char) : Nat → Option (List Char)
  | 0 => none
  | j + 1 => lazyCategory [] (run.drop (j + 1) ++ rest) <|> wsCedeCategory run rest j

/-- Numeric value of a digit run, as `Number.parseInt` reads `(\d+)`. -/
def digitsToNat (ds : List Char) : Nat :=
  ds.foldl (fun n c => n * 10 + digitVal c) 0

/-- The part of the pattern after the optional `top`:
`(\d+)?\s*(?:best|top|greatest|most popular)\s+(.+?)(?:movies?|tv shows?|series)`;
returns the two capture groups.  The `\s+` after the rating word requires at
least one whitespace character and may cede the rest of its maximal run to the
lazy category (see `wsCedeCategory`). -/
def tailMatch (cs : List Char) : Option (Option Nat × String) := do
  let ds := cs.takeWhile Char.isDigit
  let afterBest ← bestWord (dropWSMax (cs.dropWhile Char.isDigit))
  let run := afterBest.takeWhile isWS
  if run.isEmpty then none
  else do
    let cat ← wsCedeCategory run (afterBest.dropWhile isWS) run.length
    some (if ds.isEmpty then none else some (digitsToNat ds), ⟨cat⟩)

/-- Attempt the whole pattern at a fixed start position: leading verb, `\s+`,
the optional greedy `(?:top\s+)?` (with its backtracking alternative), then the
tail. -/
def matchAt (cs : List Char) : Option (Option Nat × String) := do
  let afterLead ← leadVerb cs
  let afterWS ← dropWS1 afterLead
  match dropPatCI "top".data afterWS with
  | some afterTop =>
    match dropWS1 afterTop with
    | some afterTopWS => tailMatch afterTopWS <|> tailMatch afterWS
    | none => tailMatch afterWS
  | none => tailMatch afterWS

/-- Scan for the leftmost start position at which the pattern matches. -/
def topListScan : List Char → Option (Option Nat × String)
  | [] => none
  | c :: rest => matchAt (c :: rest) <|> topListScan rest

/-- `query.match(topListPattern)`, reduced to the data the caller uses: `none`
for no match, otherwise the count capture `match[1]` (absent when no digits
were present) and the category capture `match[2]`. -/
def topListMatch (query : String) : Option (Option Nat × String) :=
  topListScan query.data

/-- The `topLists` table of `generateTopListRecommendations`, in source order. -/
def topLists : List (String × List Recommendation) :=
  [("action",
    [⟨"a1", "Mad Max: Fury Road", "High-octane post-apocalyptic action masterpiece",
      "Action Movie", mkRat 95 100⟩,
     ⟨"a2", "John Wick", "Stylish revenge thriller with incredible choreography",
      "Action Movie", mkRat 92 100⟩,
     ⟨"a3", "The Raid", "Indonesian martial arts action film with brutal intensity",
      "Action Movie", mkRat 9 10⟩,
     ⟨"a4", "Mission: Impossible - Fallout",
      "Tom Cruise\x27s most dangerous stunts in this spy thriller",
      "Action Movie", mkRat 89 100⟩,
     ⟨"a5", "Daredevil", "Netflix\x27s gritty superhero series with amazing fight scenes",
      "Action Series", mkRat 87 100⟩]),
   ("horror",
    [⟨"h1", "Hereditary", "Psychological horror that redefines family trauma",
      "Horror Movie", mkRat 94 100⟩,
     ⟨"h2", "The Conjuring", "Classic supernatural horror with perfect atmosphere",
      "Horror Movie", mkRat 91 100⟩,
     ⟨"h3", "Get Out", "Social thriller that revolutionized horror cinema",
      "Horror Movie", mkRat 93 100⟩,
     ⟨"h4", "The Haunting of Hill House",
      "Netflix\x27s masterful horror series about family and ghosts",
      "Horror Series", mkRat 9 10⟩,
     ⟨"h5", "Midsommar", "Disturbing folk horror set in broad daylight",
      "Horror Movie", mkRat 88 100⟩]),
   ("comedy",
    [⟨"c1", "The Grand Budapest Hotel", "Wes Anderson\x27s whimsical comedy masterpiece",
      "Comedy Movie", mkRat 92 100⟩,
     ⟨"c2", "Brooklyn Nine-Nine", "Perfect workplace comedy with diverse cast",
      "Comedy Series", mkRat 9 10⟩,
     ⟨"c3", "Parasite", "Dark comedy thriller about class warfare",
      "Comedy-Thriller", mkRat 95 100⟩,
     ⟨"c4", "Schitt\x27s Creek", "Heartwarming comedy about family and growth",
      "Comedy Series", mkRat 89 100⟩,
     ⟨"c5", "What We Do in the Shadows",
      "Vampire mockumentary series that\x27s absolutely hilarious",
      "Comedy Series", mkRat 87 100⟩]),
   ("drama",
    [⟨"d1", "Breaking Bad", "The ultimate character transformation drama",
      "Crime Drama", mkRat 97 100⟩,
     ⟨"d2", "The Godfather", "Epic crime saga that defined cinema",
      "Drama Movie", mkRat 96 100⟩,
     ⟨"d3", "Better Call Saul", "Breaking Bad prequel with incredible character depth",
      "Crime Drama", mkRat 94 100⟩,
     ⟨"d4", "Moonlight", "Coming-of-age drama with beautiful cinematography",
      "Drama Movie", mkRat 93 100⟩,
     ⟨"d5", "The Crown", "Royal family drama with stunning production values",
      "Historical Drama", mkRat 91 100⟩]),
   ("sci-fi",
    [⟨"s1", "Blade Runner 2049", "Visually stunning cyberpunk masterpiece",
      "Sci-Fi Movie", mkRat 94 100⟩,
     ⟨"s2", "The Expanse", "Hard science fiction with realistic space politics",
      "Sci-Fi Series", mkRat 92 100⟩,
     ⟨"s3", "Arrival", "Thoughtful alien contact film about communication",
      "Sci-Fi Movie", mkRat 91 100⟩,
     ⟨"s4", "Black Mirror", "Anthology series exploring technology\x27s dark side",
      "Sci-Fi Series", mkRat 9 10⟩,
     ⟨"s5", "Dune", "Epic space opera with incredible world-building",
      "Sci-Fi Movie", mkRat 89 100⟩]),
   ("netflix",
    [⟨"n1", "Stranger Things", "80s nostalgia meets supernatural horror",
      "Netflix Original", mkRat 93 100⟩,
     ⟨"n2", "The Queen\x27s Gambit",
      "Chess prodigy\x27s journey through addiction and genius",
      "Netflix Original", mkRat 92 100⟩,
     ⟨"n3", "Ozark", "Money laundering family drama in the Missouri Ozarks",
      "Netflix Original", mkRat 9 10⟩,
     ⟨"n4", "Mindhunter", "FBI profilers study serial killers in the 1970s",
      "Netflix Original", mkRat 89 100⟩,
     ⟨"n5", "Dark", "German time-travel thriller with complex storytelling",
      "Netflix Original", mkRat 88 100⟩])]

/-- The `generateTopListRecommendations` function: first key related to the
category by naive bidirectional substring matching, the confidence-sorted
union of all lists as fallback, then truncation to the requested count. -/
def generateTopListRecommendations (category : String) (count : Nat) :
    List Recommendation :=
  let categoryLower := toLowerS category
  let recommendations :=
    match topLists.find? (fun kl =>
        containsS categoryLower kl.1 || containsS kl.1 categoryLower) with
    | some kl => kl.2
    | none =>
      sortLe (fun a b => decide (b.confidence ≤ a.confidence))
        (topLists.flatMap (fun kl => kl.2))
  if count < recommendations.length then recommendations.take count
  else recommendations

/-- The `mockRecommendations` table of `generateMockRecommendations`, in source
order (the `default` entry is looked up separately). -/
def mockRecommendations : List (String × List Recommendation) :=
  [("netflix",
    [⟨"1", "Stranger Things",
      "Supernatural thriller series set in the 1980s with great character development",
      "Netflix Original", mkRat 9 10⟩,
     ⟨"2", "The Crown",
      "Historical drama about the British Royal Family with excellent production values",
      "Netflix Original", mkRat 85 100⟩]),
   ("hbo",
    [⟨"3", "Game of Thrones",
      "Epic fantasy series with complex characters and political intrigue",
      "HBO Original", mkRat 9 10⟩,
     ⟨"4", "The Last of Us",
      "Post-apocalyptic drama based on the popular video game",
      "HBO Original", mkRat 88 100⟩]),
   ("sci-fi",
    [⟨"5", "Blade Runner 2049",
      "Visually stunning sequel to the classic cyberpunk film",
      "Sci-Fi Movie", mkRat 92 100⟩,
     ⟨"6", "The Expanse",
      "Hard science fiction series with realistic space politics",
      "Sci-Fi Series", mkRat 87 100⟩]),
   ("thriller",
    [⟨"7", "Mindhunter",
      "Psychological crime series about FBI profilers studying serial killers",
      "Crime Thriller", mkRat 89 100⟩,
     ⟨"8", "Gone Girl",
      "Psychological thriller about a missing wife and suspicious husband",
      "Psychological Thriller", mkRat 86 100⟩]),
   ("comedy",
    [⟨"9", "The Office",
      "Mockumentary sitcom about office workers with great character humor",
      "Comedy Series", mkRat 91 100⟩,
     ⟨"10", "Brooklyn Nine-Nine",
      "Police procedural comedy with diverse cast and clever writing",
      "Comedy Series", mkRat 84 100⟩]),
   ("ryan gosling",
    [⟨"11", "La La Land",
      "Musical romantic drama about aspiring artists in Los Angeles",
      "Musical Drama", mkRat 93 100⟩,
     ⟨"12", "Drive",
      "Neo-noir action film with stylish cinematography and minimal dialogue",
      "Action Thriller", mkRat 88 100⟩]),
   ("default",
    [⟨"13", "Breaking Bad",
      "Crime drama about a chemistry teacher turned methamphetamine manufacturer",
      "Crime Drama", mkRat 95 100⟩,
     ⟨"14", "The Mandalorian",
      "Star Wars series following a bounty hunter in the outer rim",
      "Sci-Fi Adventure", mkRat 87 100⟩,
     ⟨"15", "Parasite",
      "Korean thriller about class conflict and social inequality",
      "International Thriller", mkRat 94 100⟩])]

/-- The `generateMockRecommendations` function.  The random shuffle
(`.sort(() => Math.random() - 0.5)`) is an oracle parameter. -/
def generateMockRecommendations (shuffle : List Recommendation → List Recommendation)
    (query : String) (maxRecommendations : Nat) : List Recommendation :=
  let queryLower := toLowerS query
  let selected :=
    (mockRecommendations.filter (fun kl =>
      kl.1 ≠ "default" && containsS queryLower kl.1)).flatMap (fun kl => kl.2)
  let selected :=
    if selected.isEmpty then (mockRecommendations.lookup "default").getD []
    else selected
  (shuffle selected).take maxRecommendations

/-- The `generateAIRecommendations` dispatcher: queries matching
`topListPattern` go to the LLM when a Hugging Face key is configured (with the
static table as fallback on failure, modelled by the `hfOutcome` oracle) and to
the static top-list table otherwise; all other queries go to the mock
generator. -/
def generateAIRecommendations (hfAvailable : Bool)
    (hfOutcome : Option (List Recommendation))
    (shuffle : List Recommendation → List Recommendation)
    (query : String) (maxRecommendations : Nat) : List Recommendation :=
  match topListMatch query with
  | some m =>
    let requestedCount := match m.1 with | some n => n | none => maxRecommendations
    let category := trimS m.2
    if hfAvailable then
      match hfOutcome with
      | some recs => recs
      | none => generateTopListRecommendations category requestedCount
    else generateTopListRecommendations category requestedCount
  | none => generateMockRecommendations shuffle query maxRecommendations

/-! ### The search route (`app/api/content/search/route.ts`, `GET`)

The handler either rejects the request with a 400 envelope before any search
work, or proceeds to `searchContent` with the trimmed query and the filter set
it built; the two outcomes are the two constructors of `RouteOutcome`.
`Number.parseInt` / `Number.parseFloat` are embedded below; inputs on which
they produce `NaN` (or non-finite values) are modelled by `none`, which fails
the route's range comparisons exactly as `NaN` does. -/

/-- The query parameters of the request (`searchParams.get` yields `none` for
an absent parameter). -/
structure SearchParams where
  q : Option String
  platform : Option String
  genre : Option String
  language : Option String
  country : Option String
  type : Option String
  year : Option String
  rating_min : Option String
deriving DecidableEq, Repr

/-- Outcome of the handler: an early 400 envelope, or a call to
`searchContent` with the given query and filters. -/
inductive RouteOutcome where
  | badRequest (error : String)
  | serve (q : String) (filters : SearchFilters)
deriving DecidableEq, Repr

/-- Hexadecimal digit value, for `parseInt`'s `0x` form. -/
def hexVal (c : Char) : Option Nat :=
  if c.isDigit then some (c.toNat - 48)
  else if 'a' ≤ c ∧ c ≤ 'f' then some (c.toNat - 87)
  else if 'A' ≤ c ∧ c ≤ 'F' then some (c.toNat - 55)
  else none

/-- Whether `hexVal` succeeds. -/
def isHexDigit (c : Char) : Bool := (hexVal c).isSome

/-- Numeric value of a hexadecimal digit run. -/
def hexToNat (ds : List Char) : Nat :=
  ds.foldl (fun n c => n * 16 + (hexVal c).getD 0) 0

/-- Embedding of `Number.parseInt(s)` (no radix argument): skip whitespace,
optional sign, then a maximal `0x` hexadecimal or decimal digit run; `none`
models `NaN` (no digits at all). -/
def parseIntJS (s : String) : Option Int :=
  let cs := s.data.dropWhile isWS
  let signAndRest : Int × List Char :=
    match cs with
    | '-' :: r => (-1, r)
    | '+' :: r => (1, r)
    | _ => (1, cs)
  let sign := signAndRest.1
  match signAndRest.2 with
  | '0' :: 'x' :: r =>
    let ds := r.takeWhile isHexDigit
    if ds.isEmpty then none else some (sign * (hexToNat ds : Int))
  | '0' :: 'X' :: r =>
    let ds := r.takeWhile isHexDigit
    if ds.isEmpty then none else some (sign * (hexToNat ds : Int))
  | other =>
    let ds := other.takeWhile Char.isDigit
    if ds.isEmpty then none else some (sign * (digitsToNat ds : Int))

/-- Embedding of `Number.parseFloat(s)`: skip whitespace, optional sign,
decimal digits, optional fraction, optional exponent; `none` models `NaN`
(`Infinity` inputs also map to `none`: like `NaN` they fail the route's range
checks, the only use made of the value). -/
def parseFloatJS (s : String) : Option ℚ :=
  let cs := s.data.dropWhile isWS
  let signAndRest : Int × List Char :=
    match cs with
    | '-' :: r => (-1, r)
    | '+' :: r => (1, r)
    | _ => (1, cs)
  let sign := signAndRest.1
  let intPart := signAndRest.2.takeWhile Char.isDigit
  let rest1 := signAndRest.2.dropWhile Char.isDigit
  let fracAndRest : List Char × List Char :=
    match rest1 with
    | '.' :: r => (r.takeWhile Char.isDigit, r.dropWhile Char.isDigit)
    | _ => ([], rest1)
  let fracPart := fracAndRest.1
  if intPart.isEmpty ∧ fracPart.isEmpty then none
  else
    let mantissa : Int := sign * (digitsToNat (intPart ++ fracPart) : Int)
    let expPart : Int :=
      match fracAndRest.2 with
      | c :: r =>
        if c = 'e' ∨ c = 'E' then
          let esignAndRest : Int × List Char :=
            match r with
            | '-' :: rr => (-1, rr)
            | '+' :: rr => (1, rr)
            | _ => (1, r)
          let eds := esignAndRest.2.takeWhile Char.isDigit
          if eds.isEmpty then 0 else esignAndRest.1 * (digitsToNat eds : Int)
        else 0
      | [] => 0
    let exp10 : Int := expPart - (fracPart.length : Int)
    if 0 ≤ exp10 then some (mkRat (mantissa * ((10 : Nat) ^ exp10.toNat : Nat)) 1)
    else some (mkRat mantissa ((10 : Nat) ^ (-exp10).toNat))

/-- The `GET /api/content/search` handler, up to the `searchContent` call:
query validation (missing/empty/whitespace-only, then over-length), filter
construction with `|| ""` defaults, and the silently-range-checked optional
`year` and `rating_min` parameters.  `currentYear` models
`new Date().getFullYear()`. -/
def routeBaseFilters (params : SearchParams) : SearchFilters :=
  { platform := params.platform.getD "", genre := params.genre.getD "",
    language := params.language.getD "", country := params.country.getD "",
    type := params.type.getD "", year := none, rating_min := none }

/-- The `if (year) { ... }` block: sets `filters.year` only for a nonempty
parameter parsing to a value inside `1900 .. currentYear + 5`. -/
def routeYearStep (yearParam : Option String) (currentYear : Int)
    (base : SearchFilters) : SearchFilters :=
  match yearParam with
  | some y =>
    if y ≠ "" then
      match parseIntJS y with
      | some n =>
        if 1900 ≤ n ∧ n ≤ currentYear + 5 then { base with year := some n }
        else base
      | none => base
    else base
  | none => base

/-- The `if (ratingMin) { ... }` block: sets `filters.rating_min` only for a
nonempty parameter parsing to a value inside `0 .. 10`. -/
def routeRatingStep (ratingParam : Option String) (f : SearchFilters) :
    SearchFilters :=
  match ratingParam with
  | some rm =>
    if rm ≠ "" then
      match parseFloatJS rm with
      | some r =>
        if 0 ≤ r ∧ r ≤ 10 then { f with rating_min := some r }
        else f
      | none => f
    else f
  | none => f

/-- The filter set the handler builds: defaults, then the year block, then the
rating block, in source order. -/
def routeFilters (params : SearchParams) (currentYear : Int) : SearchFilters :=
  routeRatingStep params.rating_min
    (routeYearStep params.year currentYear (routeBaseFilters params))

def searchRouteGET (params : SearchParams) (currentYear : Int) : RouteOutcome :=
  match params.q with
  | none => .badRequest "Search query is required"
  | some query =>
    if lengthS (trimS query) = 0 then .badRequest "Search query is required"
    else if 100 < lengthS query then
      .badRequest "Search query too long (max 100 characters)"
    else .serve (trimS query) (routeFilters params currentYear)

/-! ### Concrete sample data, used to instantiate hypotheses of the theorems -/

/-- A filter set with every field empty or absent, as the route builds for a
query with no filter parameters. -/
def emptyFilters : SearchFilters :=
  { platform := "", genre := "", language := "", country := "", type := "",
    year := none, rating_min := none }

/-- A sample movie item. -/
def sampleMovie : Content :=
  { id := 27205, title := "Inception", type := "movie",
    description := "A thief who steals corporate secrets.",
    release_year := 2010, imdb_rating := mkRat 88 10, tmdb_rating := mkRat 83 10,
    genre := "Action, Science Fiction", streaming_platforms := ["Netflix"],
    country := "US", language := "EN" }

/-- A sample TV item. -/
def sampleTV : Content :=
  { id := 1396, title := "Breaking Bad", type := "tv",
    description := "A chemistry teacher turns to crime.",
    release_year := 2008, imdb_rating := mkRat 95 10, tmdb_rating := mkRat 89 10,
    genre := "Drama, Crime", streaming_platforms := ["Netflix"],
    country := "US", language := "EN" }

/-- Upstream oracle: one short successful page, then empty pages. -/
def oneMoviePageOracle : Nat → APIResponse (List Content) := fun p =>
  if p = 1 then { success := true, data := some [sampleMovie], error := none, message := none }
  else { success := true, data := some [], error := none, message := none }

/-- Upstream oracle: one short successful page of TV items, then empty pages. -/
def oneTVPageOracle : Nat → APIResponse (List Content) := fun p =>
  if p = 1 then { success := true, data := some [sampleTV], error := none, message := none }
  else { success := true, data := some [], error := none, message := none }

/-- Upstream oracle: every page fails with the authentication error, as
`searchMovies` reports a 401. -/
def failingOracle : Nat → APIResponse (List Content) := fun _ =>
  { success := false, data := none, error := some authFailedMsg, message := none }

/-- Upstream oracle: every page is an empty success, so the loop stops at page
one with no items and no error. -/
def emptyPageOracle : Nat → APIResponse (List Content) := fun _ =>
  { success := true, data := some [], error := none, message := none }

/-- Filter set selecting the genre substring "drama". -/
def dramaFilters : SearchFilters :=
  { platform := "", genre := "drama", language := "", country := "", type := "",
    year := none, rating_min := none }

/-- Filter set with a minimum rating of 5. -/
def ratingFilters : SearchFilters :=
  { platform := "", genre := "", language := "", country := "", type := "",
    year := none, rating_min := some (mkRat 5 1) }

/-- Filter set restricting to movies. -/
def typeMovieFilters : SearchFilters :=
  { platform := "", genre := "", language := "", country := "", type := "movie",
    year := none, rating_min := none }

/-- A 101-character query, over the route's 100-character limit. -/
def longQuery : String := ⟨List.replicate 101 'a'⟩

/-- Whether a route outcome proceeds to `searchContent`. -/
def outcomeIsServe : RouteOutcome → Bool
  | .badRequest _ => false
  | .serve _ _ => true

/-- The filter set a serving route outcome passes to `searchContent`. -/
def outcomeFilters : RouteOutcome → Option SearchFilters
  | .badRequest _ => none
  | .serve _ f => some f

/-! ### Helper lemmas: the insertion sort -/

theorem mem_insertLe {le : α → α → Bool} {a x : α} :
    ∀ {l : List α}, x ∈ insertLe le a l ↔ x = a ∨ x ∈ l := by
  intro l
  induction l with
  | nil => simp [insertLe]
  | cons b bs ih =>
    by_cases h : le a b = true
    · simp [insertLe, h]
    · simp only [insertLe, h, if_neg, Bool.not_eq_true] at *
      simp [List.mem_cons, ih]
      tauto

theorem pairwise_insertLe {le : α → α → Bool}
    (htot : ∀ a b, le a b || le b a) (htrans : ∀ a b c, le a b → le b c → le a c)
    (a : α) : ∀ {l : List α}, l.Pairwise (fun x y => le x y = true) →
    (insertLe le a l).Pairwise (fun x y => le x y = true) := by
  intro l
  induction l with
  | nil => intro _; simp [insertLe]
  | cons b bs ih =>
    intro hp
    rcases List.pairwise_cons.mp hp with ⟨hb, hbs⟩
    by_cases h : le a b = true
    · simp only [insertLe, h, if_pos]
      refine List.pairwise_cons.mpr ⟨?_, hp⟩
      intro x hx
      rcases List.mem_cons.mp hx with rfl | hx
      · exact h
      · exact htrans a b x h (hb x hx)
    · simp only [insertLe, h, if_neg, Bool.not_eq_true]
      refine List.pairwise_cons.mpr ⟨?_, ih hbs⟩
      intro x hx
      rcases mem_insertLe.mp hx with heq | hx
      · rw [heq]
        rcases Bool.or_eq_true_iff.mp (htot a b) with h' | h'
        · exact absurd h' h
        · exact h'
      · exact hb x hx

theorem pairwise_sortLe {le : α → α → Bool}
    (htot : ∀ a b, le a b || le b a) (htrans : ∀ a b c, le a b → le b c → le a c) :
    ∀ (l : List α), (sortLe le l).Pairwise (fun x y => le x y = true) := by
  intro l
  induction l with
  | nil => simp [sortLe]
  | cons a as ih => exact pairwise_insertLe htot htrans a ih

theorem length_insertLe {le : α → α → Bool} (a : α) :
    ∀ (l : List α), (insertLe le a l).length = l.length + 1 := by
  intro l
  induction l with
  | nil => rfl
  | cons b bs ih =>
    by_cases h : le a b = true <;> simp [insertLe, h, ih]

theorem length_sortLe {le : α → α → Bool} :
    ∀ (l : List α), (sortLe le l).length = l.length := by
  intro l
  induction l with
  | nil => rfl
  | cons a as ih => simp [sortLe, length_insertLe, ih]

/-! ### Helper lemmas: the two-key comparator -/

theorem contentLe_iff {a b : Content} : contentLe a b = true ↔
    (b.tmdb_rating < a.tmdb_rating ∨
      (b.tmdb_rating = a.tmdb_rating ∧ b.imdb_rating ≤ a.imdb_rating)) := by
  unfold contentLe
  rcases eq_or_ne b.tmdb_rating a.tmdb_rating with h | h
  · simp [h]
  · rw [if_pos h]
    simp only [decide_eq_true_eq]
    constructor
    · intro hle
      exact Or.inl (lt_of_le_of_ne hle h)
    · rintro (hlt | ⟨heq, _⟩)
      · exact le_of_lt hlt
      · exact absurd heq h

theorem contentLe_total (a b : Content) : contentLe a b || contentLe b a := by
  rcases lt_trichotomy a.tmdb_rating b.tmdb_rating with h | h | h
  · have : contentLe b a = true := contentLe_iff.mpr (Or.inl h)
    simp [this]
  · rcases le_total b.imdb_rating a.imdb_rating with h' | h'
    · have : contentLe a b = true := contentLe_iff.mpr (Or.inr ⟨h.symm, h'⟩)
      simp [this]
    · have : contentLe b a = true := contentLe_iff.mpr (Or.inr ⟨h, h'⟩)
      simp [this]
  · have : contentLe a b = true := contentLe_iff.mpr (Or.inl h)
    simp [this]

theorem contentLe_trans (a b c : Content) (h₁ : contentLe a b) (h₂ : contentLe b c) :
    contentLe a c := by
  rcases contentLe_iff.mp h₁ with hb | ⟨hb, hb'⟩ <;>
    rcases contentLe_iff.mp h₂ with hc | ⟨hc, hc'⟩ <;>
    apply contentLe_iff.mpr
  · exact Or.inl (hc.trans hb)
  · exact Or.inl (hc.trans_lt hb)
  · exact Or.inl (hc.trans_eq hb)
  · exact Or.inr ⟨hc.trans hb, hc'.trans hb'⟩

/-- The relation used in the sort is exactly the sign test of the source's
comparator: `a` precedes `b` iff the comparator value is ≤ 0. -/
theorem contentLe_eq_cmpResult_nonpos (a b : Content) :
    contentLe a b = decide (cmpResult a b ≤ 0) := by
  unfold contentLe cmpResult
  by_cases h : b.tmdb_rating = a.tmdb_rating <;> simp [h, sub_nonpos]

theorem sortLe_chain (l : List Content) :
    (sortLe contentLe l).Chain' (fun a b => b.tmdb_rating ≤ a.tmdb_rating ∧
      (a.tmdb_rating = b.tmdb_rating → b.imdb_rating ≤ a.imdb_rating)) := by
  have hp := pairwise_sortLe contentLe_total contentLe_trans l
  refine (hp.imp ?_).chain'
  intro a b hab
  rcases contentLe_iff.mp hab with h | ⟨h, h'⟩
  · exact ⟨le_of_lt h, fun heq => absurd heq.symm (ne_of_lt h)⟩
  · exact ⟨le_of_eq h, fun _ => h'⟩

/-! ### Helper lemmas: the filter stage -/

theorem all_congr_of_perm {l l' : List α} (h : l.Perm l') (q : α → Bool) :
    l.all q = l'.all q := by
  induction h with
  | nil => rfl
  | cons a _ ih => simp [List.all_cons, ih]
  | swap a b l => simp [List.all_cons, Bool.and_left_comm]
  | trans _ _ ih₁ ih₂ => exact ih₁.trans ih₂

/-- The per-item predicate of `applyFilters` is the conjunction of the seven
field guards. -/
theorem itemPasses_eq_all (f : SearchFilters) (item : Content) :
    itemPasses f item = fieldChecks.all (fun p => p f item) := by
  simp [itemPasses, fieldChecks, List.all_cons, Bool.and_assoc]

/-- Filtering by a list of predicates one at a time equals filtering once by
their conjunction. -/
theorem foldl_filter_eq_filter_all (f : SearchFilters) :
    ∀ (checks : List (SearchFilters → Content → Bool)) (content : List Content),
    checks.foldl (fun acc p => acc.filter (fun item => p f item)) content =
      content.filter (fun item => checks.all (fun p => p f item)) := by
  intro checks
  induction checks with
  | nil =>
    intro content
    simp [List.all_nil, List.filter_true]
  | cons p ps ih =>
    intro content
    rw [List.foldl_cons, ih, List.filter_filter]
    apply List.filter_congr
    intro x _
    simp [List.all_cons, Bool.and_comm]

/-! ### Helper lemmas: the pagination loop -/

/-- Characterisation of the pagination loop: if the pages from `s` up to (but
not including) the first stopping page `N` all continue, the loop with enough
fuel returns the concatenated pushed items of pages `s..N` and the error (if
any) of page `N`, independently of the fuel. -/
theorem fetchPages_eq_of_stop (pages : Nat → APIResponse (List Content)) :
    ∀ (fuel s N : Nat), s ≤ N →
    (∀ p, s ≤ p → p < N → pageContinues (pages p) = true) →
    pageContinues (pages N) = false → N - s < fuel →
    fetchPages pages fuel s =
      ((List.range' s (N - s + 1)).flatMap (fun p => pushedItems (pages p)),
        stopErrors (pages N)) := by
  intro fuel
  induction fuel with
  | zero => intro s N _ _ _ hfuel; omega
  | succ fuel ih =>
    intro s N hsN hcont hstop hfuel
    rcases eq_or_lt_of_le hsN with heq | hlt
    · rw [← heq] at hstop ⊢
      have hN : s - s + 1 = 1 := by omega
      rw [hN]
      simp only [List.range'_one, List.flatMap_cons, List.flatMap_nil, List.append_nil]
      unfold fetchPages
      by_cases hpush : (pages s).success = true ∧ 0 < (pageItems (pages s)).length
      · have hshort : (pageItems (pages s)).length < 20 := by
          by_contra hns
          apply absurd hstop
          simp [pageContinues, hpush.1, hpush.2, Nat.not_lt.mp hns, Nat.not_lt]
        rw [if_pos hpush, if_pos hshort]
        have herr : stopErrors (pages s) = [] := by
          unfold stopErrors
          rcases (pages s).error with _ | e
          · rfl
          · simp [hpush.1]
        rw [herr]
        simp [pushedItems, hpush]
      · rw [if_neg hpush]
        simp [pushedItems, hpush]
    · have hc := hcont s le_rfl hlt
      have hpush : (pages s).success = true ∧ 0 < (pageItems (pages s)).length := by
        simp only [pageContinues, Bool.and_eq_true, decide_eq_true_eq,
          Bool.not_eq_true', decide_eq_false_iff_not] at hc
        exact ⟨hc.1.1, hc.1.2⟩
      have hlong : ¬ (pageItems (pages s)).length < 20 := by
        simp only [pageContinues, Bool.and_eq_true, decide_eq_true_eq,
          Bool.not_eq_true', decide_eq_false_iff_not] at hc
        exact hc.2
      unfold fetchPages
      rw [if_pos hpush, if_neg hlong]
      have ihs := ih (s + 1) N (by omega)
        (fun p hp hp' => hcont p (by omega) hp') hstop (by omega)
      rw [ihs]
      have hrange : List.range' s (N - s + 1) = s :: List.range' (s + 1) (N - (s + 1) + 1) := by
        have h1 : N - s + 1 = (N - (s + 1) + 1) + 1 := by omega
        rw [h1, List.range'_succ]
      rw [hrange]
      simp [List.flatMap_cons, pushedItems, hpush]

/-- The loop requests consecutive pages starting at `s`: its trace is an
initial range, hence no page is ever requested twice. -/
theorem fetchTrace_eq_range' (pages : Nat → APIResponse (List Content)) :
    ∀ (fuel s : Nat), ∃ k, fetchTrace pages fuel s = List.range' s k := by
  intro fuel
  induction fuel with
  | zero => intro s; exact ⟨0, rfl⟩
  | succ fuel ih =>
    intro s
    by_cases h : pageContinues (pages s) = true
    · rcases ih (s + 1) with ⟨k, hk⟩
      refine ⟨k + 1, ?_⟩
      unfold fetchTrace
      rw [if_pos h, hk, List.range'_succ]
    · refine ⟨1, ?_⟩
      unfold fetchTrace
      rw [if_neg h]
      simp [List.range'_one]

theorem fetchTrace_nodup (pages : Nat → APIResponse (List Content))
    (fuel s : Nat) : (fetchTrace pages fuel s).Nodup := by
  rcases fetchTrace_eq_range' pages fuel s with ⟨k, hk⟩
  rw [hk]
  exact List.nodup_range' s k

/-! ### Claims -/

/-- C1: for each content type's pagination loop (both the movie and the TV loop
of `searchContent` are `fetchPages` on the respective page oracle), assuming
every upstream page carries at most 20 items, the loop that increments the page
counter stops at the first page `N` that fails, is empty, or is short: with any
sufficient fuel it returns exactly the concatenation of the items pushed from
pages `1..N` (so the result does not depend on the fuel, i.e. the loop
terminates there), every earlier page having carried exactly 20 items. -/
theorem claim_C1_pagination_terminates
    (pages : Nat → APIResponse (List Content)) (fuel N : Nat)
    (hbound : ∀ p, (pageItems (pages p)).length ≤ 20)
    (hN : 1 ≤ N)
    (hcont : ∀ p, 1 ≤ p → p < N → pageContinues (pages p) = true)
    (hstop : pageContinues (pages N) = false)
    (hfuel : N ≤ fuel) :
    fetchPages pages fuel 1 =
        ((List.range' 1 N).flatMap (fun p => pushedItems (pages p)),
          stopErrors (pages N)) ∧
      ∀ p, 1 ≤ p → p < N → (pageItems (pages p)).length = 20 := by
  constructor
  · have h := fetchPages_eq_of_stop pages fuel 1 N hN hcont hstop (by omega)
    rwa [show N - 1 + 1 = N by omega] at h
  · intro p h1 h2
    have hc := hcont p h1 h2
    simp only [pageContinues, Bool.and_eq_true, decide_eq_true_eq,
      Bool.not_eq_true', decide_eq_false_iff_not] at hc
    have := hbound p
    omega

/-- Witness for C1: a concrete oracle whose first page is a short success. -/
theorem claim_C1_witness :
    fetchPages oneMoviePageOracle 3 1 = ([sampleMovie], []) := by
  have h := (claim_C1_pagination_terminates oneMoviePageOracle 3 1
    (by
      intro p
      by_cases hp : p = 1 <;> simp [oneMoviePageOracle, hp, pageItems])
    le_rfl
    (by intro p h1 h2; omega)
    (by decide)
    (by decide)).1
  rw [h]
  decide

/-- C3: `applyFilters` keeps exactly the items satisfying the conjunction of
the seven field-level guards, and filtering by the seven fields one at a time,
in any order, gives the same result as applying them all at once. -/
theorem claim_C3_filters_conjunction_commute
    (content : List Content) (f : SearchFilters)
    (checks : List (SearchFilters → Content → Bool))
    (hperm : checks.Perm fieldChecks) :
    applyFilters content f =
        content.filter (fun item => fieldChecks.all (fun p => p f item)) ∧
      checks.foldl (fun acc p => acc.filter (fun item => p f item)) content =
        applyFilters content f := by
  constructor
  · apply List.filter_congr
    intro x _
    exact itemPasses_eq_all f x
  · rw [foldl_filter_eq_filter_all f checks content]
    unfold applyFilters
    apply List.filter_congr
    intro x _
    rw [itemPasses_eq_all f x]
    exact all_congr_of_perm hperm (fun p => p f x)

/-- Witness for C3: the seven guards with the first two swapped, applied one at
a time to a concrete two-item list. -/
theorem claim_C3_witness :
    applyFilters [sampleMovie, sampleTV] dramaFilters =
        [sampleMovie, sampleTV].filter
          (fun item => fieldChecks.all (fun p => p dramaFilters item)) ∧
      [passesGenre, passesType, passesLanguage, passesCountry, passesPlatform,
          passesRating, passesYear].foldl
          (fun acc p => acc.filter (fun item => p dramaFilters item))
          [sampleMovie, sampleTV] =
        applyFilters [sampleMovie, sampleTV] dramaFilters :=
  claim_C3_filters_conjunction_commute [sampleMovie, sampleTV] dramaFilters _
    (List.Perm.swap passesType passesGenre
      [passesLanguage, passesCountry, passesPlatform, passesRating, passesYear])

/-- C5: when the filter set carries a positive minimum rating `r`, every item
`applyFilters` keeps has a rating at least `r`: its TMDB rating or its IMDB
rating reaches the floor (the source drops an item only when both are below). -/
theorem claim_C5_rating_floor
    (content : List Content) (f : SearchFilters) (r : ℚ) (item : Content)
    (hr : f.rating_min = some r) (hpos : 0 < r)
    (hmem : item ∈ applyFilters content f) :
    r ≤ item.tmdb_rating ∨ r ≤ item.imdb_rating := by
  have hpass : itemPasses f item = true := (List.mem_filter.mp hmem).2
  simp only [itemPasses, Bool.and_eq_true] at hpass
  have hrt := hpass.1.2
  unfold passesRating at hrt
  rw [hr] at hrt
  have hrt' : (if r ≠ 0 ∧ 0 < r then
      !(decide (item.tmdb_rating < r) && decide (item.imdb_rating < r))
    else true) = true := hrt
  rw [if_pos ⟨ne_of_gt hpos, hpos⟩] at hrt'
  rw [Bool.not_eq_eq_eq_not, Bool.not_true, Bool.and_eq_false_iff] at hrt'
  rcases hrt' with h | h
  · exact Or.inl (not_lt.mp (of_decide_eq_false h))
  · exact Or.inr (not_lt.mp (of_decide_eq_false h))

/-- Witness for C5: the sample movie passes a floor of 5 and indeed has a
rating at least 5. -/
theorem claim_C5_witness :
    mkRat 5 1 ≤ sampleMovie.tmdb_rating ∨ mkRat 5 1 ≤ sampleMovie.imdb_rating :=
  claim_C5_rating_floor [sampleMovie] ratingFilters (mkRat 5 1) sampleMovie
    rfl (by decide) (by decide)

/-- C9: the output of `applyFilters` is a subsequence of its input (each kept
item is an unmodified input element, in input order, with no duplication), and
with every filter field empty or absent the output equals the input. -/
theorem claim_C9_filter_subsequence (content : List Content) (f : SearchFilters) :
    (applyFilters content f).Sublist content ∧
      applyFilters content emptyFilters = content := by
  constructor
  · exact List.filter_sublist content
  · unfold applyFilters
    have h : ∀ item ∈ content, itemPasses emptyFilters item = true := by
      intro item _
      simp [itemPasses, passesType, passesGenre, passesLanguage, passesCountry,
        passesPlatform, passesRating, passesYear, emptyFilters]
    rw [List.filter_congr (q := fun _ => true) (by intro x hx; simp [h x hx])]
    exact List.filter_true content

/-- C2: the list returned by a successful `searchContent` is sorted by the
two-key descending order: every adjacent pair has non-increasing
`tmdb_rating`, and non-increasing `imdb_rating` where the `tmdb_rating` values
are equal. -/
theorem claim_C2_sorted_output
    (key : Bool) (mv tv : Nat → APIResponse (List Content)) (fuel : Nat)
    (filters : SearchFilters) (l : List Content)
    (_hs : (searchContent key mv tv fuel filters).success = true)
    (hd : (searchContent key mv tv fuel filters).data = some l) :
    l.Chain' (fun a b => b.tmdb_rating ≤ a.tmdb_rating ∧
      (a.tmdb_rating = b.tmdb_rating → b.imdb_rating ≤ a.imdb_rating)) := by
  clear _hs
  simp only [searchContent] at hd
  split at hd
  · simp at hd
  · split at hd
    · simp at hd
    · split at hd
      · simp at hd
      · simp only [Option.some.injEq] at hd
        rw [← hd]
        exact sortLe_chain _

/-- Witness for C2: a successful search whose single result list is sorted. -/
theorem claim_C2_witness :
    [sampleMovie].Chain' (fun a b => b.tmdb_rating ≤ a.tmdb_rating ∧
      (a.tmdb_rating = b.tmdb_rating → b.imdb_rating ≤ a.imdb_rating)) :=
  claim_C2_sorted_output true oneMoviePageOracle failingOracle 3 emptyFilters
    [sampleMovie] (by decide) (by decide)

/-- C4 (code bug): for the query "top 10 action movies" the rule-based query
interpreter decides for category discovery (`useDiscoverAPI = true`), yet
`searchContent` — whose own doc comment announces "LLM-powered query
interpretation" — never consults the interpreter: its outbound requests for
that query are exactly the direct title searches `/search/movie` and
`/search/tv` with the raw query, and no discovery request. -/
theorem claim_C4_interpreter_not_invoked :
    (parseQueryIntelligently "top 10 action movies" none).useDiscoverAPI = true ∧
      searchContentRequests "top 10 action movies" emptyPageOracle emptyPageOracle 5 =
        [UpstreamRequest.searchMovie "top 10 action movies" 1,
          UpstreamRequest.searchTV "top 10 action movies" 1] := by
  decide

/-- C6 (amended): when one content type's search yields no items but an error
while the other yields items, `searchContent` returns a success response with
the surviving type's items — provided at least one of them passes the filters;
it returns the first collected error exactly when both types produced no items
and some error was collected; and no page is ever requested twice (no failed
call is reissued). -/
theorem claim_C6_partial_results
    (mv tv : Nat → APIResponse (List Content)) (fuel : Nat)
    (filters : SearchFilters) (e : String) (rest : List String) :
    ((fetchPages mv fuel 1).1 = [] → (fetchPages tv fuel 1).1 ≠ [] →
      applyFilters (fetchPages tv fuel 1).1 filters ≠ [] →
      searchContent true mv tv fuel filters =
        { success := true,
          data := some (sortLe contentLe
            (applyFilters (fetchPages tv fuel 1).1 filters)),
          error := none,
          message := some ("Found " ++ toString (sortLe contentLe
            (applyFilters (fetchPages tv fuel 1).1 filters)).length ++ " results") }) ∧
    ((fetchPages tv fuel 1).1 = [] → (fetchPages mv fuel 1).1 ≠ [] →
      applyFilters (fetchPages mv fuel 1).1 filters ≠ [] →
      searchContent true mv tv fuel filters =
        { success := true,
          data := some (sortLe contentLe
            (applyFilters (fetchPages mv fuel 1).1 filters)),
          error := none,
          message := some ("Found " ++ toString (sortLe contentLe
            (applyFilters (fetchPages mv fuel 1).1 filters)).length ++ " results") }) ∧
    ((fetchPages mv fuel 1).1 = [] → (fetchPages tv fuel 1).1 = [] →
      (fetchPages mv fuel 1).2 ++ (fetchPages tv fuel 1).2 = e :: rest →
      searchContent true mv tv fuel filters =
        { success := false, data := none, error := some e, message := none }) ∧
    (fetchTrace mv fuel 1).Nodup ∧ (fetchTrace tv fuel 1).Nodup := by
  refine ⟨?_, ?_, ?_, fetchTrace_nodup mv fuel 1, fetchTrace_nodup tv fuel 1⟩
  · intro hm ht hf
    simp only [searchContent]
    rw [if_neg (by simp)]
    rw [hm, List.nil_append]
    rw [if_neg (by
      rintro ⟨h0, _⟩
      exact ht (List.length_eq_zero.mp h0))]
    rw [if_neg (by
      rw [length_sortLe]
      intro h0
      exact hf (List.length_eq_zero.mp h0))]
  · intro ht hm hf
    simp only [searchContent]
    rw [if_neg (by simp)]
    rw [ht, List.append_nil]
    rw [if_neg (by
      rintro ⟨h0, _⟩
      exact hm (List.length_eq_zero.mp h0))]
    rw [if_neg (by
      rw [length_sortLe]
      intro h0
      exact hf (List.length_eq_zero.mp h0))]
  · intro hm ht herr
    simp only [searchContent]
    rw [if_neg (by simp)]
    rw [hm, ht, herr]
    rw [if_pos (by simp)]
    simp

/-- Witness for C6: the movie search fails with the authentication error, the
TV search returns one item, and `searchContent` succeeds with that item. -/
theorem claim_C6_witness :
    searchContent true failingOracle oneTVPageOracle 3 emptyFilters =
      { success := true, data := some [sampleTV], error := none,
        message := some "Found 1 results" } := by
  have h := (claim_C6_partial_results failingOracle oneTVPageOracle 3
    emptyFilters "" []).1 (by decide) (by decide) (by decide)
  rw [h]
  decide

/-- Counterexample for C6 as stated: the movie search errors with no items and
the TV search returns a (nonempty) item list, yet `searchContent` returns a
failure — the type filter removes the surviving TV item, so the no-results
failure message is returned instead of a success with the surviving items. -/
theorem claim_C6_counterexample :
    (fetchPages failingOracle 3 1).1 = [] ∧
      (fetchPages failingOracle 3 1).2 = [authFailedMsg] ∧
      (fetchPages oneTVPageOracle 3 1).1 = [sampleTV] ∧
      searchContent true failingOracle oneTVPageOracle 3 typeMovieFilters =
        { success := false, data := none, error := some noResultsMsg,
          message := none } := by
  decide

/-- A contiguous occurrence makes `containsS` true. -/
theorem containsS_go_of_infix {needle : List Char} :
    ∀ {hay : List Char}, needle <:+: hay → containsS.go needle hay = true := by
  intro hay
  induction hay with
  | nil =>
    intro h
    rw [List.infix_nil] at h
    subst h
    rfl
  | cons c cs ih =>
    intro h
    rcases List.infix_cons_iff.mp h with hpre | hinf
    · unfold containsS.go
      rw [Bool.or_eq_true]
      exact Or.inl (List.isPrefixOf_iff_prefix.mpr hpre)
    · unfold containsS.go
      rw [Bool.or_eq_true]
      exact Or.inr (ih hinf)

theorem containsS_of_infix {s sub : String} (h : sub.data <:+: s.data) :
    containsS s sub = true :=
  containsS_go_of_infix h

/-- The status code appears inside the generic request-failed message. -/
theorem requestFailedMsg_contains_status (status : Nat) (statusText : String) :
    containsS (requestFailedMsg status statusText) (toString status) = true := by
  apply containsS_of_infix
  refine ⟨"API request failed: ".data, (" " ++ statusText).data, ?_⟩
  simp [requestFailedMsg, String.data_append, List.append_assoc]

/-- C7: for every non-ok upstream response in the per-page movie and TV search
calls, status 401 yields the user-facing authentication failure envelope, any
other status yields the generic request-failed envelope whose error string
contains the status, and in every case the function returns an envelope rather
than throwing (both functions are total on all inputs). -/
theorem claim_C7_upstream_error_envelopes
    (resp : UpstreamHTTP) (okM okT : List Content)
    (hok : resp.ok = false) :
    (resp.status = 401 →
      searchMoviesResult true resp okM =
        { success := false, data := none, error := some authFailedMsg,
          message := none } ∧
      searchTVShowsResult true resp okT =
        { success := false, data := none, error := some authFailedMsg,
          message := none }) ∧
    (resp.status ≠ 401 →
      searchMoviesResult true resp okM =
        { success := false, data := none,
          error := some (requestFailedMsg resp.status resp.statusText),
          message := none } ∧
      searchTVShowsResult true resp okT =
        { success := false, data := none,
          error := some (requestFailedMsg resp.status resp.statusText),
          message := none } ∧
      containsS (requestFailedMsg resp.status resp.statusText)
        (toString resp.status) = true) := by
  constructor
  · intro h401
    constructor
    · unfold searchMoviesResult
      rw [if_neg (by simp), if_pos hok, if_pos h401]
    · unfold searchTVShowsResult
      rw [if_neg (by simp), if_pos hok, if_pos h401]
  · intro hne
    refine ⟨?_, ?_, requestFailedMsg_contains_status resp.status resp.statusText⟩
    · unfold searchMoviesResult
      rw [if_neg (by simp), if_pos hok, if_neg hne]
    · unfold searchTVShowsResult
      rw [if_neg (by simp), if_pos hok, if_neg hne]

/-- Witness for C7: a 401 response and a 500 response. -/
theorem claim_C7_witness :
    searchMoviesResult true ⟨false, 401, "Unauthorized"⟩ [] =
        { success := false, data := none, error := some authFailedMsg,
          message := none } ∧
      searchTVShowsResult true ⟨false, 500, "Internal Server Error"⟩ [] =
        { success := false, data := none,
          error := some (requestFailedMsg 500 "Internal Server Error"),
          message := none } :=
  ⟨((claim_C7_upstream_error_envelopes ⟨false, 401, "Unauthorized"⟩ [] []
      rfl).1 rfl).1,
    ((claim_C7_upstream_error_envelopes ⟨false, 500, "Internal Server Error"⟩
      [] [] rfl).2 (by decide)).2.1⟩

/-- C8 (amended): for every recommendation query that the top-list regular
expression accepts — which requires one of the lead verbs list/show/give
me/find, e.g. "list top 5 best horror movies" — whose extracted category
substring-matches a key of the static top-list table, the generator (with no
LLM key configured) returns that category's static list truncated to the
requested count, and every returned entry's category is tagged with the
matched key. -/
theorem claim_C8_toplist_recommendations
    (query cat : String) (nOpt : Option Nat) (maxRec : Nat)
    (shuffle : List Recommendation → List Recommendation)
    (k : String) (lst : List Recommendation)
    (hmatch : topListMatch query = some (nOpt, cat))
    (hfind : topLists.find? (fun kl =>
        containsS (toLowerS (trimS cat)) kl.1 ||
          containsS kl.1 (toLowerS (trimS cat))) = some (k, lst)) :
    generateAIRecommendations false none shuffle query maxRec =
        lst.take (nOpt.getD maxRec) ∧
      ∀ r ∈ lst.take (nOpt.getD maxRec), containsS (toLowerS r.category) k = true := by
  have hcore : ∀ count : Nat,
      generateTopListRecommendations (trimS cat) count = lst.take count := by
    intro count
    simp only [generateTopListRecommendations]
    rw [hfind]
    by_cases hlt : count < lst.length
    · rw [if_pos hlt]
    · rw [if_neg hlt]
      exact (List.take_of_length_le (Nat.le_of_not_lt hlt)).symm
  constructor
  · unfold generateAIRecommendations
    rw [hmatch]
    simp only [if_neg (by simp : ¬ (false = true))]
    cases nOpt with
    | none => exact hcore maxRec
    | some n => exact hcore n
  · intro r hr
    have hmem : (k, lst) ∈ topLists := List.mem_of_find?_eq_some hfind
    have htag : ∀ kl ∈ topLists, ∀ r ∈ kl.2,
        containsS (toLowerS r.category) kl.1 = true := by decide
    exact htag (k, lst) hmem r (List.take_subset _ _ hr)

/-- Witness for C8: the amended query "list top 5 best horror movies" returns
the horror table's five entries, all horror-tagged. -/
theorem claim_C8_witness :
    generateAIRecommendations false none id "list top 5 best horror movies" 50 =
        ((topLists.lookup "horror").getD []).take 5 ∧
      ∀ r ∈ ((topLists.lookup "horror").getD []).take 5,
        containsS (toLowerS r.category) "horror" = true :=
  claim_C8_toplist_recommendations "list top 5 best horror movies" "horror "
    (some 5) 50 id "horror" ((topLists.lookup "horror").getD [])
    (by decide) (by decide)

/-- Counterexample for C8 as stated: the spec's example query
"top 5 best horror movies" contains none of the lead verbs the regular
expression requires, so it does not match; the generator falls through to the
generic mock recommendations, whose entries are not horror-tagged. -/
theorem claim_C8_counterexample :
    topListMatch "top 5 best horror movies" = none ∧
      generateAIRecommendations false none id "top 5 best horror movies" 50 =
        (mockRecommendations.lookup "default").getD [] ∧
      ((mockRecommendations.lookup "default").getD []).all
        (fun r => !(containsS (toLowerS r.category) "horror")) = true := by
  decide

theorem routeRatingStep_year (rp : Option String) (f : SearchFilters) :
    (routeRatingStep rp f).year = f.year := by
  unfold routeRatingStep
  rcases rp with _ | rm
  · rfl
  · dsimp only
    split
    · split
      · split <;> rfl
      · rfl
    · rfl

theorem routeYearStep_rating (yp : Option String) (cy : Int) (base : SearchFilters) :
    (routeYearStep yp cy base).rating_min = base.rating_min := by
  unfold routeYearStep
  rcases yp with _ | ys
  · rfl
  · dsimp only
    split
    · split
      · split <;> rfl
      · rfl
    · rfl

theorem routeYearStep_year_none (ys : String) (cy : Int) (base : SearchFilters)
    (hbase : base.year = none)
    (hbad : ∀ n, parseIntJS ys = some n → ¬ (1900 ≤ n ∧ n ≤ cy + 5)) :
    (routeYearStep (some ys) cy base).year = none := by
  unfold routeYearStep
  dsimp only
  split
  · rcases hp : parseIntJS ys with _ | n
    · exact hbase
    · dsimp only
      rw [if_neg (hbad n hp)]
      exact hbase
  · exact hbase

theorem routeRatingStep_rating_none (rs : String) (f : SearchFilters)
    (hf : f.rating_min = none)
    (hbad : ∀ r, parseFloatJS rs = some r → ¬ (0 ≤ r ∧ r ≤ 10)) :
    (routeRatingStep (some rs) f).rating_min = none := by
  unfold routeRatingStep
  dsimp only
  split
  · rcases hp : parseFloatJS rs with _ | r
    · exact hf
    · dsimp only
      rw [if_neg (hbad r hp)]
      exact hf
  · exact hf

/-- C10: the search route returns a 400 envelope without reaching
`searchContent` when the `q` parameter is missing, empty or whitespace-only,
or longer than 100 characters; an out-of-range (or unparsable) `year` or
`rating_min` parameter is silently dropped from the filter set and the search
proceeds without it. -/
theorem claim_C10_route_validation (params : SearchParams) (currentYear : Int) :
    (params.q = none →
      searchRouteGET params currentYear = .badRequest "Search query is required") ∧
    (∀ s, params.q = some s → lengthS (trimS s) = 0 →
      searchRouteGET params currentYear = .badRequest "Search query is required") ∧
    (∀ s, params.q = some s → lengthS (trimS s) ≠ 0 → 100 < lengthS s →
      searchRouteGET params currentYear =
        .badRequest "Search query too long (max 100 characters)") ∧
    (∀ s ys, params.q = some s → lengthS (trimS s) ≠ 0 → ¬ 100 < lengthS s →
      params.year = some ys →
      (∀ n, parseIntJS ys = some n → ¬ (1900 ≤ n ∧ n ≤ currentYear + 5)) →
      outcomeIsServe (searchRouteGET params currentYear) = true ∧
        (outcomeFilters (searchRouteGET params currentYear)).map
          (fun f => f.year) = some none) ∧
    (∀ s rs, params.q = some s → lengthS (trimS s) ≠ 0 → ¬ 100 < lengthS s →
      params.rating_min = some rs →
      (∀ r, parseFloatJS rs = some r → ¬ (0 ≤ r ∧ r ≤ 10)) →
      outcomeIsServe (searchRouteGET params currentYear) = true ∧
        (outcomeFilters (searchRouteGET params currentYear)).map
          (fun f => f.rating_min) = some none) := by
  refine ⟨?_, ?_, ?_, ?_, ?_⟩
  · intro h
    simp [searchRouteGET, h]
  · intro s hq h0
    simp [searchRouteGET, hq, h0]
  · intro s hq h0 hlen
    simp [searchRouteGET, hq, h0, hlen]
  · intro s ys hq h0 hlen hy hbad
    simp only [searchRouteGET, hq]
    rw [if_neg h0, if_neg hlen]
    refine ⟨rfl, ?_⟩
    show (some (routeFilters params currentYear)).map (fun f => f.year) = some none
    rw [Option.map_some', routeFilters, routeRatingStep_year, hy,
      routeYearStep_year_none ys currentYear _ rfl hbad]
  · intro s rs hq h0 hlen hrs hbad
    simp only [searchRouteGET, hq]
    rw [if_neg h0, if_neg hlen]
    refine ⟨rfl, ?_⟩
    show (some (routeFilters params currentYear)).map (fun f => f.rating_min) = some none
    rw [Option.map_some', routeFilters, hrs,
      routeRatingStep_rating_none rs _ ((routeYearStep_rating _ _ _).trans rfl) hbad]

/-- Witness for C10: the four rejection/drop behaviours at concrete requests
(current year 2026). -/
theorem claim_C10_witness :
    searchRouteGET ⟨none, none, none, none, none, none, none, none⟩ 2026 =
        .badRequest "Search query is required" ∧
      searchRouteGET ⟨some "   ", none, none, none, none, none, none, none⟩ 2026 =
        .badRequest "Search query is required" ∧
      searchRouteGET ⟨some longQuery, none, none, none, none, none, none, none⟩ 2026 =
        .badRequest "Search query too long (max 100 characters)" ∧
      (outcomeIsServe (searchRouteGET
          ⟨some "batman", none, none, none, none, none, some "1066", none⟩ 2026) = true ∧
        (outcomeFilters (searchRouteGET
          ⟨some "batman", none, none, none, none, none, some "1066", none⟩ 2026)).map
          (fun f => f.year) = some none) ∧
      (outcomeIsServe (searchRouteGET
          ⟨some "batman", none, none, none, none, none, none, some "11"⟩ 2026) = true ∧
        (outcomeFilters (searchRouteGET
          ⟨some "batman", none, none, none, none, none, none, some "11"⟩ 2026)).map
          (fun f => f.rating_min) = some none) := by
  refine ⟨?_, ?_, ?_, ?_, ?_⟩
  · exact (claim_C10_route_validation
      ⟨none, none, none, none, none, none, none, none⟩ 2026).1 rfl
  · exact (claim_C10_route_validation
      ⟨some "   ", none, none, none, none, none, none, none⟩ 2026).2.1 "   " rfl
      (by decide)
  · exact (claim_C10_route_validation
      ⟨some longQuery, none, none, none, none, none, none, none⟩ 2026).2.2.1
      longQuery rfl (by decide) (by decide)
  · exact (claim_C10_route_validation
      ⟨some "batman", none, none, none, none, none, some "1066", none⟩ 2026).2.2.2.1
      "batman" "1066" rfl (by decide) (by decide) rfl
      (by
        intro n hn
        have h1066 : parseIntJS "1066" = some 1066 := by decide
        rw [h1066] at hn
        have hn' := Option.some.inj hn
        omega)
  · exact (claim_C10_route_validation
      ⟨some "batman", none, none, none, none, none, none, some "11"⟩ 2026).2.2.2.2
      "batman" "11" rfl (by decide) (by decide) rfl
      (by
        intro r hr
        have h11 : parseFloatJS "11" = some (mkRat 11 1) := by decide
        rw [h11] at hr
        rw [← Option.some.inj hr]
        decide)

end Bingeworthy
